import Mathlib

/-!
Shallow embedding of the validation engine of `src/datavalidation1.py`:
the tabular data model, the rule registry, the full-table runner
`validate_data`, the per-row runner `validate_row`, the fix step
`fix_failed_rows`, and the `main` fix/revalidate loop.

Modelling conventions: a pandas cell is either a missing value (NaN) or a
string; the uploaded file is abstracted as the table it parses to; operator
inputs (rule selections, text inputs, confirmation clicks) are oracle
functions; Python exceptions are `Except.error` values carrying the
exception name; dates are taken in ISO `YYYY-MM-DD` form, parsed to a
comparable numeral, with unparseable strings raising as `pd.to_datetime`
does and missing values becoming `NaT` (modelled as `none`, which compares
as false like `NaT`). Row indices are taken within the table's row range.
-/

namespace DataValidation

/-- A cell of the tabular view: a missing value (pandas NaN) or a string value. -/
inductive Cell where
  | null : Cell
  | str (s : String) : Cell
deriving DecidableEq

/-- Python `str(x)` on a cell: a missing value prints as `nan`. -/
def pyStr : Cell → String
  | Cell.null => "nan"
  | Cell.str s => s

/-- Pandas `isnull` on one cell. -/
def isNull : Cell → Bool
  | Cell.null => true
  | Cell.str _ => false

/-- A table: named columns, each an ordered list of cells aligned by row index. -/
structure Table where
  cols : List (String × List Cell)
deriving DecidableEq

def Table.colNames (t : Table) : List String :=
  t.cols.map (fun p => p.1)

def Table.nrows (t : Table) : Nat :=
  match t.cols with
  | [] => 0
  | p :: _ => p.2.length

/-- Column access `df[col]`: the first column with the given name; a missing
column raises `KeyError`. -/
def getColE (t : Table) (c : String) : Except String (List Cell) :=
  match t.cols.find? (fun p => p.1 == c) with
  | some p => Except.ok p.2
  | none => Except.error "KeyError"

/-- Row access `df.loc[idx]`: the row at the given index as (column, cell) pairs. -/
def Table.getRow (t : Table) (idx : Nat) : List (String × Cell) :=
  t.cols.map (fun p => (p.1, p.2.getD idx Cell.null))

/-- Cell read used in theorem statements: `none` when the column or row is absent. -/
def Table.getCell? (t : Table) (idx : Nat) (c : String) : Option Cell :=
  (t.cols.find? (fun p => p.1 == c)).bind (fun p => p.2[idx]?)

/-- Scalar access `row[col]` on a row Series; a missing column raises `KeyError`. -/
def lookupE (row : List (String × Cell)) (c : String) : Except String Cell :=
  match row.find? (fun p => p.1 == c) with
  | some p => Except.ok p.2
  | none => Except.error "KeyError"

/-- The closed set of rule kinds offered by `get_validation_rules` (src lines 59-64). -/
inductive RuleType where
  | required
  | dataTypes
  | stringLength
  | numericRanges
  | categoricalValues
  | dateTimeConstraints
  | patternMatching
  | uniqueValues
  | dependencies
  | customFunctions
deriving DecidableEq

/-- Membership test `col in validation_rules` on the rule dictionary. -/
def rulesContains (rules : List (String × RuleType)) (c : String) : Bool :=
  rules.any (fun p => p.1 == c)

/-- Character class `[a-zA-Z0-9._%+-]` of the email pattern's local part. -/
def isLocalChar (c : Char) : Bool :=
  c.isAlpha || c.isDigit || c == '.' || c == '_' || c == '%' || c == '+' || c == '-'

/-- Character class `[a-zA-Z0-9.-]` of the email pattern's domain part. -/
def isDomainChar (c : Char) : Bool :=
  c.isAlpha || c.isDigit || c == '.' || c == '-'

/-- Split a character list at every occurrence of a separator character. -/
def splitOnChar (c : Char) : List Char → List (List Char)
  | [] => [[]]
  | x :: xs =>
    let r := splitOnChar c xs
    if x == c then [] :: r
    else
      match r with
      | [] => [[x]]
      | y :: ys => (x :: y) :: ys

/-- Rejoin segments with a dot separator. -/
def joinDots (segs : List (List Char)) : List Char :=
  List.intercalate ['.'] segs

/-- Domain side of the anchored email pattern: `[a-zA-Z0-9.-]+\.[a-zA-Z]{2,}` up to
the end of the string. Because the final `[a-zA-Z]{2,}` group contains no dot, a
split witnessing the pattern exists exactly when splitting at the last dot works. -/
def domainOk (dom : List Char) : Bool :=
  let segs := splitOnChar '.' dom
  let tld := segs.getLastD []
  let front := joinDots segs.dropLast
  !front.isEmpty && front.all isDomainChar && decide (2 ≤ tld.length) && tld.all Char.isAlpha

/-- Match of the full character list against `[a-zA-Z0-9._%+-]+@[a-zA-Z0-9.-]+\.[a-zA-Z]{2,}`. -/
def matchEmailChars (l : List Char) : Bool :=
  match splitOnChar '@' l with
  | [localPart, dom] => !localPart.isEmpty && localPart.all isLocalChar && domainOk dom
  | _ => false

/-- Python `re.match` of the pattern `^[a-zA-Z0-9._%+-]+@[a-zA-Z0-9.-]+\.[a-zA-Z]{2,}$`
(src lines 101, 171): the `^`/`$` anchors make it a full match, except that a `$`
anchor also matches just before one trailing newline. -/
def matchEmail (s : String) : Bool :=
  matchEmailChars s.toList ||
    (s.toList.getLast? == some '\n' && matchEmailChars s.toList.dropLast)

/-- Digits-only numeral reading, `none` on an empty or non-numeric segment. -/
def digitsToNat (l : List Char) : Option Nat :=
  if l.isEmpty then none
  else if l.all Char.isDigit then
    some (l.foldl (fun n c => n * 10 + (c.toNat - 48)) 0)
  else none

/-- Parse an ISO `YYYY-MM-DD` date string to a comparable numeral. -/
def parseDate (s : String) : Option Nat :=
  match splitOnChar '-' s.toList with
  | [y, m, d] =>
    match digitsToNat y, digitsToNat m, digitsToNat d with
    | some a, some b, some c => some (a * 10000 + b * 100 + c)
    | _, _, _ => none
  | _ => none

/-- `pd.to_datetime` on one cell: a missing value becomes `NaT` (`none`), an
unparseable string raises `ParserError`. -/
def toDatetimeCell : Cell → Except String (Option Nat)
  | Cell.null => Except.ok none
  | Cell.str s =>
    match parseDate s with
    | some n => Except.ok (some n)
    | none => Except.error "ParserError"

/-- `pd.to_datetime` on a whole column, raising at the first unparseable cell. -/
def to_datetime_col : List Cell → Except String (List (Option Nat))
  | [] => Except.ok []
  | x :: xs =>
    match toDatetimeCell x with
    | Except.error e => Except.error e
    | Except.ok v =>
      match to_datetime_col xs with
      | Except.error e => Except.error e
      | Except.ok rest => Except.ok (v :: rest)

/-- Date comparison `s >= e`; any comparison involving `NaT` is false. -/
def dtGe : Option Nat → Option Nat → Bool
  | some a, some b => decide (b ≤ a)
  | _, _ => false

/-- `df.duplicated(subset=[col]).any()`: does any value occur twice in the column?
Pandas treats missing values as equal to each other here, as does `Cell` equality. -/
def hasDupAux : List Cell → List Cell → Bool
  | _, [] => false
  | seen, x :: xs => if seen.contains x then true else hasDupAux (x :: seen) xs

def hasDup (l : List Cell) : Bool := hasDupAux [] l

/-- `custom_phone_number_validation(value)` (src lines 153-155): always passes. -/
def custom_phone_number_validation (_ : Cell) : Bool := true

/-- One arm of `validate_data`'s if/elif chain (src lines 79-110): does the rule
declared for `col` flag the column? `Except.ok true` means the column's index is
appended to `failed_rows`; `Except.error` is a raised exception. Rule kinds with
no implemented check fall through and never flag. -/
def checkColumn (df : Table) (rules : List (String × RuleType)) (col : String) :
    RuleType → Except String Bool
  | RuleType.required =>
    match getColE df col with
    | Except.error e => Except.error e
    | Except.ok xs => Except.ok (xs.any isNull)
  | RuleType.uniqueValues =>
    match getColE df col with
    | Except.error e => Except.error e
    | Except.ok xs => Except.ok (hasDup xs)
  | RuleType.dependencies =>
    if rulesContains rules "Start Date" && rulesContains rules "End Date" then
      match getColE df "Start Date" with
      | Except.error e => Except.error e
      | Except.ok s =>
        match to_datetime_col s with
        | Except.error e => Except.error e
        | Except.ok ps =>
          match getColE df "End Date" with
          | Except.error e => Except.error e
          | Except.ok t =>
            match to_datetime_col t with
            | Except.error e => Except.error e
            | Except.ok qs => Except.ok ((ps.zip qs).any (fun p => dtGe p.1 p.2))
    else Except.ok false
  | RuleType.patternMatching =>
    if col == "Email Address" then
      match getColE df col with
      | Except.error e => Except.error e
      | Except.ok xs => Except.ok (xs.any (fun x => !matchEmail (pyStr x)))
    else Except.ok false
  | RuleType.customFunctions =>
    if col == "Phone Number" then
      match getColE df col with
      | Except.error e => Except.error e
      | Except.ok xs => Except.ok (xs.any (fun x => !custom_phone_number_validation x))
    else Except.ok false
  | _ => Except.ok false

/-- The `for idx, (col, rule_type) in enumerate(validation_rules.items())` loop of
`validate_data`, carrying the running enumeration index `i`. -/
def validateFrom (df : Table) (rules : List (String × RuleType)) :
    Nat → List (String × RuleType) → Except String (List Nat)
  | _, [] => Except.ok []
  | i, (c, rt) :: rest =>
    match checkColumn df rules c rt with
    | Except.error e => Except.error e
    | Except.ok failed =>
      match validateFrom df rules (i + 1) rest with
      | Except.error e => Except.error e
      | Except.ok tail => Except.ok (if failed then i :: tail else tail)

/-- `validate_data(df, validation_rules)` (src lines 69-125): the returned
`failed_rows` list. Note that the source appends the enumeration position of the
column whose rule flagged, one entry per flagging column. -/
def validate_data (df : Table) (rules : List (String × RuleType)) :
    Except String (List Nat) :=
  validateFrom df rules 0 rules

/-- One arm of `validate_row`'s if/elif chain (src lines 158-178), for the rule
declared on `col`: `Except.ok true` means the row passes this rule and the loop
continues, `Except.ok false` means `validate_row` returns `False`. The unique-values
arm calls `Series.duplicated` with a `subset` keyword, which raises `TypeError`;
the pattern arm passes the raw cell to `re.match`, which raises `TypeError` on a
missing (non-string) value. -/
def rowCheck (row : List (String × Cell)) (rules : List (String × RuleType))
    (col : String) : RuleType → Except String Bool
  | RuleType.required =>
    match lookupE row col with
    | Except.error e => Except.error e
    | Except.ok x => Except.ok (!isNull x)
  | RuleType.uniqueValues =>
    Except.error "TypeError: duplicated got an unexpected keyword argument subset"
  | RuleType.dependencies =>
    if rulesContains rules "Start Date" && rulesContains rules "End Date" then
      match lookupE row "Start Date" with
      | Except.error e => Except.error e
      | Except.ok s =>
        match toDatetimeCell s with
        | Except.error e => Except.error e
        | Except.ok sd =>
          match lookupE row "End Date" with
          | Except.error e => Except.error e
          | Except.ok t =>
            match toDatetimeCell t with
            | Except.error e => Except.error e
            | Except.ok ed => Except.ok (!dtGe sd ed)
    else Except.ok true
  | RuleType.patternMatching =>
    if col == "Email Address" then
      match lookupE row col with
      | Except.error e => Except.error e
      | Except.ok Cell.null => Except.error "TypeError: expected string or bytes-like object"
      | Except.ok (Cell.str s) => Except.ok (matchEmail s)
    else Except.ok true
  | RuleType.customFunctions =>
    if col == "Phone Number" then
      match lookupE row col with
      | Except.error e => Except.error e
      | Except.ok x => Except.ok (custom_phone_number_validation x)
    else Except.ok true
  | _ => Except.ok true

def validateRowAux (row : List (String × Cell)) (rules : List (String × RuleType)) :
    List (String × RuleType) → Except String Bool
  | [] => Except.ok true
  | (c, rt) :: rest =>
    match rowCheck row rules c rt with
    | Except.error e => Except.error e
    | Except.ok pass => if pass then validateRowAux row rules rest else Except.ok false

/-- `validate_row(row, validation_rules)` (src lines 157-179). -/
def validate_row (row : List (String × Cell)) (rules : List (String × RuleType)) :
    Except String Bool :=
  validateRowAux row rules rules

/-- Restricted-mode revalidation: `validate_row` applied to each requested row
index in turn, collecting the failing rows (the re-check of src lines 147-148
run over a row subset). -/
def revalidate_rows (df : Table) (rules : List (String × RuleType)) :
    List Nat → Except String (List Nat)
  | [] => Except.ok []
  | r :: rest =>
    match validate_row (df.getRow r) rules with
    | Except.error e => Except.error e
    | Except.ok pass =>
      match revalidate_rows df rules rest with
      | Except.error e => Except.error e
      | Except.ok tail => Except.ok (if pass then tail else r :: tail)

/-- The `new_values` dictionary built at src lines 134-138: one text-input value
per column whose declared rule is `Required fields`; looking up a column with no
declared rule raises `KeyError`. `inp` is the operator's text-input oracle. -/
def buildNewValues (inp : Nat → String → String) (idx : Nat)
    (rules : List (String × RuleType)) :
    List String → Except String (List (String × Cell))
  | [] => Except.ok []
  | c :: rest =>
    match rules.find? (fun p => p.1 == c) with
    | none => Except.error "KeyError"
    | some p =>
      match buildNewValues inp idx rules rest with
      | Except.error e => Except.error e
      | Except.ok tail =>
        Except.ok (if p.2 == RuleType.required then (c, Cell.str (inp idx c)) :: tail else tail)

/-- Dict alignment for a row assignment: the value a column receives from the
`new_values` dict, a missing value when the column is not a key of the dict. -/
def alignCell (nv : List (String × Cell)) (name : String) : Cell :=
  match nv.find? (fun q => q.1 == name) with
  | some q => q.2
  | none => Cell.null

/-- `df.loc[idx] = new_values` (src line 141): whole-row assignment with dict
alignment — every column of the row is written, and columns absent from the
dict receive a missing value. -/
def setRowAligned (df : Table) (idx : Nat) (nv : List (String × Cell)) : Table :=
  ⟨df.cols.map (fun p => (p.1, p.2.set idx (alignCell nv p.1)))⟩

/-- Result of the fix step: the (possibly partially) mutated table, the
`new_failed_rows` accumulator, and the exception that escaped, when any.
In-place mutations performed before a raise persist. -/
structure FixResult where
  df : Table
  newFailed : List Nat
  err : Option String

/-- One iteration of the `for idx in failed_rows` loop of `fix_failed_rows`
(src lines 132-148): build `new_values`, assign the row, revalidate the row. -/
def fixStep (inp : Nat → String → String) (rules : List (String × RuleType))
    (st : FixResult) (idx : Nat) : FixResult :=
  match st.err with
  | some e => ⟨st.df, st.newFailed, some e⟩
  | none =>
    match buildNewValues inp idx rules st.df.colNames with
    | Except.error e => ⟨st.df, st.newFailed, some e⟩
    | Except.ok nv =>
      match validate_row ((setRowAligned st.df idx nv).getRow idx) rules with
      | Except.error e => ⟨setRowAligned st.df idx nv, st.newFailed, some e⟩
      | Except.ok true => ⟨setRowAligned st.df idx nv, st.newFailed, none⟩
      | Except.ok false => ⟨setRowAligned st.df idx nv, st.newFailed ++ [idx], none⟩

/-- `fix_failed_rows(df, failed_rows, validation_rules)` (src lines 127-151). -/
def fix_failed_rows (inp : Nat → String → String) (df : Table) (failed : List Nat)
    (rules : List (String × RuleType)) : FixResult :=
  failed.foldl (fixStep inp rules) ⟨df, [], none⟩

/-- `load_data(uploaded_file)` (src lines 36-49): the uploaded file is abstracted
as the table it deterministically parses to. -/
def load_data (file : Table) : Table := file

/-- `get_validation_rules(df)` (src lines 55-67): one rule selection per column,
in column order; `select` is the operator's selectbox oracle. -/
def get_validation_rules (select : String → RuleType) (df : Table) :
    List (String × RuleType) :=
  df.colNames.map (fun c => (c, select c))

/-- State of `main`'s loop variables: the data frame, the declared rules, and the
local `failed_rows` (`none` while still unbound). -/
structure MainState where
  df : Table
  rules : List (String × RuleType)
  failedRows : Option (List Nat)

/-- State after src lines 12-15: table loaded, rules declared, `validate_data`
run with its return value discarded — `failed_rows` is still unbound. -/
def mainInit (file : Table) (select : String → RuleType) : Except String MainState :=
  match validate_data (load_data file) (get_validation_rules select (load_data file)) with
  | Except.error e => Except.error e
  | Except.ok _ =>
    Except.ok ⟨load_data file, get_validation_rules select (load_data file), none⟩

/-- One iteration of the `while True` loop (src lines 17-34): call
`fix_failed_rows` on the current `failed_rows` (raising `UnboundLocalError` when
it is still unbound), optionally export, reload the original data and re-declare
rules when the operator does not confirm, re-run `validate_data` discarding its
value, and reset `failed_rows` to the empty list. -/
def loopIter (file : Table) (select : String → RuleType) (inp : Nat → String → String)
    (st : MainState) (confirm : Bool) : Except String MainState :=
  match st.failedRows with
  | none => Except.error "UnboundLocalError: failed_rows referenced before assignment"
  | some fr =>
    let fx := fix_failed_rows inp st.df fr st.rules
    match fx.err with
    | some e => Except.error e
    | none =>
      let step :=
        if confirm then (fx.df, st.rules)
        else (load_data file, get_validation_rules select (load_data file))
      match validate_data step.1 step.2 with
      | Except.error e => Except.error e
      | Except.ok _ => Except.ok ⟨step.1, step.2, some []⟩

/-- Two successive validation runs on an unmutated table (the spec's idempotence
scenario, §8). -/
def runTwice (df : Table) (rules : List (String × RuleType)) :
    Except String (List Nat × List Nat) :=
  match validate_data df rules with
  | Except.error e => Except.error e
  | Except.ok o1 =>
    match validate_data df rules with
    | Except.error e => Except.error e
    | Except.ok o2 => Except.ok (o1, o2)

/-- Single column `c` carrying values `["x", null, "y"]` (spec §8 Required scenario). -/
def tblReq : Table := ⟨[("c", [Cell.str "x", Cell.null, Cell.str "y"])]⟩

def rulesReq : List (String × RuleType) := [("c", RuleType.required)]

/-- Single column `c` carrying values `[A, A, B]` (spec §8 UniqueValues scenario). -/
def tblUniq : Table := ⟨[("c", [Cell.str "A", Cell.str "A", Cell.str "B"])]⟩

/-- The UniqueValues scenario table after fixing row 1 to `C`. -/
def tblUniqFixed : Table := ⟨[("c", [Cell.str "A", Cell.str "C", Cell.str "B"])]⟩

def rulesUniq : List (String × RuleType) := [("c", RuleType.uniqueValues)]

/-- Email column with values `["a@b.com", "bad"]` (spec §8 PatternMatch scenario). -/
def tblEmail : Table := ⟨[("Email Address", [Cell.str "a@b.com", Cell.str "bad"])]⟩

/-- Email column holding a single missing value. -/
def tblEmailNull : Table := ⟨[("Email Address", [Cell.null])]⟩

def rulesEmail : List (String × RuleType) := [("Email Address", RuleType.patternMatching)]

/-- Date columns with one row where Start Date is after End Date (spec §8). -/
def tblDep : Table :=
  ⟨[("Start Date", [Cell.str "2024-01-02"]), ("End Date", [Cell.str "2024-01-01"])]⟩

def rulesDep : List (String × RuleType) :=
  [("Start Date", RuleType.dependencies), ("End Date", RuleType.dataTypes)]

/-- Date columns where the Start Date cell does not parse as a date. -/
def tblBadDate : Table :=
  ⟨[("Start Date", [Cell.str "bad"]), ("End Date", [Cell.str "2024-01-01"])]⟩

def rulesBadDate : List (String × RuleType) :=
  [("Start Date", RuleType.dependencies), ("End Date", RuleType.dataTypes)]

/-- Two-column table: a Required column `a` with a missing value and a plain
column `b` holding `"v"`. -/
def tblFix : Table := ⟨[("a", [Cell.null]), ("b", [Cell.str "v"])]⟩

def rulesFix : List (String × RuleType) :=
  [("a", RuleType.required), ("b", RuleType.dataTypes)]

/-- Text-input oracle answering `"x"` to every prompt. -/
def inpFix : Nat → String → String := fun _ _ => "x"

/-- A one-column, one-row clean file for loop-level scenarios. -/
def fileW : Table := ⟨[("c", [Cell.str "x"])]⟩

/-- Selectbox oracle declaring the (unimplemented) data-types rule everywhere. -/
def selW : String → RuleType := fun _ => RuleType.dataTypes

def rulesW : List (String × RuleType) := [("c", RuleType.dataTypes)]

/-- Main-loop state right after `mainInit fileW selW`. -/
def st0W : MainState := ⟨fileW, rulesW, none⟩

/-- Main-loop state with `failed_rows` bound to the empty list. -/
def stSomeW : MainState := ⟨fileW, rulesW, some []⟩

/-- A loop state whose table was mutated in memory (cell of `c` nulled out). -/
def stMutW : MainState := ⟨⟨[("c", [Cell.null])]⟩, rulesW, some []⟩

/-- Every index collected by the `validate_data` loop lies in the enumeration
range of the rules still to be processed. -/
theorem validateFrom_mem (df : Table) (rules : List (String × RuleType)) :
    ∀ (rest : List (String × RuleType)) (i : Nat) (l : List Nat),
      validateFrom df rules i rest = Except.ok l →
      ∀ x ∈ l, i ≤ x ∧ x < i + rest.length := by
  intro rest
  induction rest with
  | nil =>
    intro i l h x hx
    simp only [validateFrom] at h
    cases h
    simp at hx
  | cons p rest ih =>
    obtain ⟨c, rt⟩ := p
    intro i l h x hx
    simp only [validateFrom] at h
    split at h
    · cases h
    · split at h
      · cases h
      · rename_i tail hr
        split at h
        · have e := Except.ok.inj h
          subst e
          rcases List.mem_cons.mp hx with hx | hx
          · subst hx
            refine ⟨Nat.le_refl x, ?_⟩
            simp only [List.length_cons]
            omega
          · have hb := ih (i + 1) tail hr x hx
            refine ⟨by omega, ?_⟩
            simp only [List.length_cons]
            omega
        · have e := Except.ok.inj h
          subst e
          have hb := ih (i + 1) tail hr x hx
          refine ⟨by omega, ?_⟩
          simp only [List.length_cons]
          omega

/-- The rows reported failing by restricted revalidation come from the
requested row subset. -/
theorem revalidate_rows_subset (df : Table) (rules : List (String × RuleType)) :
    ∀ (rows : List Nat) (l : List Nat),
      revalidate_rows df rules rows = Except.ok l → l ⊆ rows := by
  intro rows
  induction rows with
  | nil =>
    intro l h
    simp only [revalidate_rows] at h
    cases h
    simp
  | cons r rest ih =>
    intro l h
    simp only [revalidate_rows] at h
    split at h
    · cases h
    · split at h
      · cases h
      · rename_i tail hr
        split at h
        · have e := Except.ok.inj h
          subst e
          exact (ih tail hr).trans (List.subset_cons_self r rest)
        · have e := Except.ok.inj h
          subst e
          intro x hx
          rcases List.mem_cons.mp hx with hx | hx
          · subst hx; exact List.mem_cons_self x rest
          · exact List.mem_cons_of_mem r (ih tail hr hx)

/-- Finding a column by name commutes with the per-column cell rewrite performed
by a whole-row assignment. -/
theorem find?_bind_setRow (idx : Nat) (nv : List (String × Cell)) (r : Nat) (c : String) :
    ∀ (cols : List (String × List Cell)),
      ((cols.map (fun p => (p.1, p.2.set idx (alignCell nv p.1)))).find?
          (fun p => p.1 == c)).bind (fun p => p.2[r]?) =
        (cols.find? (fun p => p.1 == c)).bind
          (fun p => (p.2.set idx (alignCell nv p.1))[r]?) := by
  intro cols
  induction cols with
  | nil => rfl
  | cons p rest ih =>
    simp only [List.map_cons, List.find?_cons]
    cases h : (p.1 == c)
    · simp only [h]
      exact ih
    · simp only [h, Option.some_bind]

/-- A whole-row assignment leaves every other row's cells unchanged. -/
theorem getCell?_setRowAligned_ne (df : Table) (idx : Nat) (nv : List (String × Cell))
    (r : Nat) (c : String) (h : r ≠ idx) :
    (setRowAligned df idx nv).getCell? r c = df.getCell? r c := by
  show ((df.cols.map (fun p => (p.1, p.2.set idx (alignCell nv p.1)))).find?
      (fun p => p.1 == c)).bind (fun p => p.2[r]?) = _
  rw [find?_bind_setRow]
  cases hf : df.cols.find? (fun p => p.1 == c) with
  | none => simp [Table.getCell?, hf]
  | some p =>
    simp only [Table.getCell?, hf, Option.some_bind]
    exact List.getElem?_set_ne (fun e => h e.symm)

/-- A whole-row assignment overwrites with a missing value every present cell of
the assigned row whose column is not a key of the dict. -/
theorem getCell?_setRowAligned_missing (df : Table) (idx : Nat)
    (nv : List (String × Cell)) (c : String) (v : Cell)
    (h2 : nv.find? (fun q => q.1 == c) = none)
    (h3 : df.getCell? idx c = some v) :
    (setRowAligned df idx nv).getCell? idx c = some Cell.null := by
  show ((df.cols.map (fun p => (p.1, p.2.set idx (alignCell nv p.1)))).find?
      (fun p => p.1 == c)).bind (fun p => p.2[idx]?) = _
  rw [find?_bind_setRow]
  unfold Table.getCell? at h3
  cases hf : df.cols.find? (fun p => p.1 == c) with
  | none => rw [hf] at h3; cases h3
  | some p =>
    rw [hf] at h3
    simp only [Option.some_bind] at h3
    have hlt : idx < p.2.length := by
      rcases List.getElem?_eq_some.mp h3 with ⟨hl, _⟩
      exact hl
    have hpc : p.1 = c := by
      have hb := List.find?_some hf
      exact eq_of_beq hb
    have hcell : alignCell nv p.1 = Cell.null := by
      unfold alignCell
      rw [hpc, h2]
    simp only [Option.some_bind, hcell]
    exact List.getElem?_set_eq_of_lt _ hlt

/-- One fix-loop iteration only writes the row it is fixing. -/
theorem fixStep_preserves_other_rows (inp : Nat → String → String)
    (rules : List (String × RuleType)) (st : FixResult) (idx r : Nat) (c : String)
    (h : r ≠ idx) :
    (fixStep inp rules st idx).df.getCell? r c = st.df.getCell? r c := by
  unfold fixStep
  split
  · rfl
  · split
    · rfl
    · split
      · exact getCell?_setRowAligned_ne _ _ _ _ _ h
      · exact getCell?_setRowAligned_ne _ _ _ _ _ h
      · exact getCell?_setRowAligned_ne _ _ _ _ _ h

/-- The fix-loop fold only writes rows listed in `failed`. -/
theorem fix_failed_rows_frame_aux (inp : Nat → String → String)
    (rules : List (String × RuleType)) :
    ∀ (failed : List Nat) (st : FixResult) (r : Nat) (c : String), r ∉ failed →
      (failed.foldl (fixStep inp rules) st).df.getCell? r c = st.df.getCell? r c := by
  intro failed
  induction failed with
  | nil => intro st r c _; rfl
  | cons idx rest ih =>
    intro st r c h
    have hne : r ≠ idx := fun e => h (e ▸ List.mem_cons_self idx rest)
    have hnr : r ∉ rest := fun e => h (List.mem_cons_of_mem idx e)
    simp only [List.foldl_cons]
    rw [ih (fixStep inp rules st idx) r c hnr]
    exact fixStep_preserves_other_rows inp rules st idx r c hne

/-- Fixing a single row whose `new_values` dict builds successfully performs
exactly the whole-row aligned assignment, whatever the revalidation outcome. -/
theorem fix_single_row_df (inp : Nat → String → String) (df : Table) (idx : Nat)
    (rules : List (String × RuleType)) (nv : List (String × Cell))
    (h1 : buildNewValues inp idx rules df.colNames = Except.ok nv) :
    (fix_failed_rows inp df [idx] rules).df = setRowAligned df idx nv := by
  have hu : fix_failed_rows inp df [idx] rules =
      fixStep inp rules ⟨df, [], none⟩ idx := rfl
  rw [hu]
  show (match buildNewValues inp idx rules df.colNames with
    | Except.error e => (⟨df, [], some e⟩ : FixResult)
    | Except.ok nv =>
      match validate_row ((setRowAligned df idx nv).getRow idx) rules with
      | Except.error e => ⟨setRowAligned df idx nv, [], some e⟩
      | Except.ok true => ⟨setRowAligned df idx nv, [], none⟩
      | Except.ok false => ⟨setRowAligned df idx nv, [] ++ [idx], none⟩).df =
    setRowAligned df idx nv
  rw [h1]
  split
  · rename_i e heq
    cases heq
  · rename_i tail heq
    have et := Except.ok.inj heq
    subst et
    split <;> rfl

/-- C1 (code bug): on the Required scenario column `["x", null, "y"]` the run
returns the failing set `[0]` — the flagging column's enumeration position, one
entry per column — not the failing row set `{1}` the claim states. -/
theorem c1_required_failing_set_is_column_position :
    validate_data tblReq rulesReq = Except.ok [0] ∧
    validate_data tblReq rulesReq ≠ Except.ok [1] := by
  refine ⟨rfl, fun h => ?_⟩
  have h0 : validate_data tblReq rulesReq = Except.ok [0] := rfl
  rw [h0] at h
  exact absurd (Except.ok.inj h) (by decide)

/-- C2 (counterexample): on the Required scenario table, full-mode validation
returns `[0]` while restricted validation over the full row set returns `[1]`,
so the two modes do not produce identical outcomes. -/
theorem c2_counterexample_modes_disagree :
    validate_data tblReq rulesReq = Except.ok [0] ∧
    revalidate_rows tblReq rulesReq [0, 1, 2] = Except.ok [1] ∧
    (Except.ok [0] : Except String (List Nat)) ≠ Except.ok [1] := by
  refine ⟨rfl, rfl, fun h => ?_⟩
  exact absurd (Except.ok.inj h) (by decide)

/-- C2 (amended): the two modes report failures in different index spaces —
every index in a full-mode failing set is a column enumeration position (below
the number of declared rules), while every index in a restricted-mode failing
set is one of the requested row indices. -/
theorem c2_full_flags_columns_restricted_flags_rows :
    (∀ (df : Table) (rules : List (String × RuleType)) (l : List Nat),
      validate_data df rules = Except.ok l → l ⊆ List.range rules.length) ∧
    (∀ (df : Table) (rules : List (String × RuleType)) (rows l : List Nat),
      revalidate_rows df rules rows = Except.ok l → l ⊆ rows) := by
  constructor
  · intro df rules l h x hx
    have hb := validateFrom_mem df rules rules 0 l h x hx
    exact List.mem_range.mpr (by omega)
  · intro df rules rows l h
    exact revalidate_rows_subset df rules rows l h

/-- C2 (witness): the index-space theorem applied to the Required scenario. -/
theorem c2_index_spaces_witness :
    ([0] : List Nat) ⊆ List.range 1 ∧ ([1] : List Nat) ⊆ [0, 1, 2] :=
  ⟨c2_full_flags_columns_restricted_flags_rows.1 tblReq rulesReq [0] rfl,
   c2_full_flags_columns_restricted_flags_rows.2 tblReq rulesReq [0, 1, 2] [1] rfl⟩

/-- C3 (counterexample): on column `[A, A, B]` full validation does not fail
rows 0 and 1 (it returns the column position `[0]`), and after fixing row 1 to
`C` restricted revalidation of the fixed row does not report passing — it
raises instead of comparing against the full column. -/
theorem c3_counterexample_restricted_unique :
    validate_data tblUniq rulesUniq ≠ Except.ok [0, 1] ∧
    revalidate_rows tblUniqFixed rulesUniq [1] ≠ Except.ok [] := by
  constructor
  · intro h
    have h0 : validate_data tblUniq rulesUniq = Except.ok [0] := rfl
    rw [h0] at h
    exact absurd (Except.ok.inj h) (by decide)
  · intro h
    have h0 : revalidate_rows tblUniqFixed rulesUniq [1] =
        Except.error "TypeError: duplicated got an unexpected keyword argument subset" := rfl
    rw [h0] at h
    cases h

/-- C3 (amended): full validation flags the unique-values column's position when
any duplicate exists, and restricted revalidation never compares against the
full column — its unique-values arm always raises a `TypeError` because
`Series.duplicated` receives an unexpected `subset` keyword. -/
theorem c3_unique_full_flags_column_restricted_raises :
    validate_data tblUniq rulesUniq = Except.ok [0] ∧
    revalidate_rows tblUniqFixed rulesUniq [1] =
      Except.error "TypeError: duplicated got an unexpected keyword argument subset" ∧
    ∀ (row : List (String × Cell)) (rules : List (String × RuleType)) (col : String),
      rowCheck row rules col RuleType.uniqueValues =
        Except.error "TypeError: duplicated got an unexpected keyword argument subset" :=
  ⟨rfl, rfl, fun _ _ _ => rfl⟩

/-- C4: when the operator declines confirmation, the loop iteration ends with
the table reloaded from the original file, the rules re-declared from it, and a
full validation whose outcome equals the post-load outcome — regardless of the
in-memory mutations held in the entering state. -/
theorem c4_decline_restores_post_load_state :
    ∀ (file : Table) (select : String → RuleType) (inp : Nat → String → String)
      (st st2 st0 : MainState),
      mainInit file select = Except.ok st0 →
      loopIter file select inp st false = Except.ok st2 →
      st2.df = st0.df ∧ st2.rules = st0.rules ∧
      validate_data st2.df st2.rules = validate_data st0.df st0.rules := by
  intro file select inp st st2 st0 h0 h1
  simp only [mainInit] at h0
  split at h0
  · cases h0
  · have e0 := Except.ok.inj h0
    subst e0
    simp only [loopIter] at h1
    split at h1
    · cases h1
    · split at h1
      · cases h1
      · split at h1
        · cases h1
        · have e1 := Except.ok.inj h1
          subst e1
          exact ⟨rfl, rfl, rfl⟩

/-- C4 (witness): declining from a mutated loop state over the concrete clean
file restores the post-load table, rules and outcome. -/
theorem c4_decline_restores_witness :
    stSomeW.df = st0W.df ∧ stSomeW.rules = st0W.rules ∧
    validate_data stSomeW.df stSomeW.rules = validate_data st0W.df st0W.rules :=
  c4_decline_restores_post_load_state fileW selW inpFix stMutW stSomeW st0W rfl rfl

/-- C5 (counterexample): fixing row 0 of the two-column table overwrites the
cell in column `b` — which is not part of the submission — with a missing
value, so a submitted row's unsubmitted cells do not stay unchanged. -/
theorem c5_counterexample_unsubmitted_cell_overwritten :
    tblFix.getCell? 0 "b" = some (Cell.str "v") ∧
    (fix_failed_rows inpFix tblFix [0] rulesFix).df.getCell? 0 "b" = some Cell.null ∧
    (some Cell.null : Option Cell) ≠ some (Cell.str "v") :=
  ⟨rfl, rfl, by decide⟩

/-- C5 (amended): rows not in the submitted failing set keep all their cells,
but within a fixed row the assignment is a whole-row write — every present cell
whose column is not a key of the `new_values` dict is overwritten with a
missing value. -/
theorem c5_fix_frame_and_row_clobber :
    (∀ (inp : Nat → String → String) (df : Table) (failed : List Nat)
        (rules : List (String × RuleType)) (r : Nat) (c : String), r ∉ failed →
      (fix_failed_rows inp df failed rules).df.getCell? r c = df.getCell? r c) ∧
    (∀ (inp : Nat → String → String) (df : Table) (idx : Nat)
        (rules : List (String × RuleType)) (nv : List (String × Cell))
        (c : String) (v : Cell),
      buildNewValues inp idx rules df.colNames = Except.ok nv →
      nv.find? (fun q => q.1 == c) = none →
      df.getCell? idx c = some v →
      (fix_failed_rows inp df [idx] rules).df.getCell? idx c = some Cell.null) := by
  constructor
  · intro inp df failed rules r c h
    exact fix_failed_rows_frame_aux inp rules failed ⟨df, [], none⟩ r c h
  · intro inp df idx rules nv c v h1 h2 h3
    rw [fix_single_row_df inp df idx rules nv h1]
    exact getCell?_setRowAligned_missing df idx nv c v h2 h3

/-- C5 (witness): the frame and clobber parts applied to the concrete
two-column table. -/
theorem c5_fix_frame_witness :
    (fix_failed_rows inpFix tblFix [1] rulesFix).df.getCell? 0 "b" =
      tblFix.getCell? 0 "b" ∧
    (fix_failed_rows inpFix tblFix [0] rulesFix).df.getCell? 0 "b" = some Cell.null :=
  ⟨c5_fix_frame_and_row_clobber.1 inpFix tblFix [1] rulesFix 0 "b" (by decide),
   c5_fix_frame_and_row_clobber.2 inpFix tblFix 0 rulesFix [("a", Cell.str "x")] "b"
     (Cell.str "v") rfl rfl rfl⟩

/-- C6 (code bug): the source's email pattern is anchored at both ends, so a
valid prefix followed by trailing garbage fails the per-cell check; but on the
scenario column `["a@b.com", "bad"]` the run returns `[0]` — the column's
enumeration position — not the failing row set `{1}` the claim states. -/
theorem c6_pattern_anchored_failing_set_is_column_position :
    matchEmail "a@b.com" = true ∧
    matchEmail "a@b.com!" = false ∧
    matchEmail "bad" = false ∧
    validate_data tblEmail rulesEmail = Except.ok [0] ∧
    validate_data tblEmail rulesEmail ≠ Except.ok [1] := by
  refine ⟨rfl, rfl, rfl, rfl, fun h => ?_⟩
  have h0 : validate_data tblEmail rulesEmail = Except.ok [0] := rfl
  rw [h0] at h
  exact absurd (Except.ok.inj h) (by decide)

/-- C7: with both date columns declared, the start-after-end row fails per-row
validation and the full run flags the dependency rule's column; and whenever
either partner column is absent from the declared rules, the dependency rule is
a pass with no error, for the full-column check and for every row check. -/
theorem c7_dependency_fails_row_and_noop_when_absent :
    (validate_row (tblDep.getRow 0) rulesDep = Except.ok false ∧
     validate_data tblDep rulesDep = Except.ok [0]) ∧
    (∀ (df : Table) (rules : List (String × RuleType)) (col : String),
      rulesContains rules "Start Date" = false ∨ rulesContains rules "End Date" = false →
      checkColumn df rules col RuleType.dependencies = Except.ok false ∧
      ∀ row, rowCheck row rules col RuleType.dependencies = Except.ok true) := by
  refine ⟨⟨rfl, rfl⟩, ?_⟩
  intro df rules col h
  have hc : (rulesContains rules "Start Date" && rulesContains rules "End Date") = false := by
    rcases h with h | h <;> simp [h]
  constructor
  · simp [checkColumn, hc]
  · intro row
    simp [rowCheck, hc]

/-- C7 (witness): with only a Required rule on column `c` declared, the
dependency check on any column is a no-op pass. -/
theorem c7_dependency_noop_witness :
    checkColumn tblDep [("c", RuleType.required)] "c" RuleType.dependencies =
      Except.ok false :=
  (c7_dependency_fails_row_and_noop_when_absent.2 tblDep
    [("c", RuleType.required)] "c" (Or.inl rfl)).1

/-- C8 (counterexample): an unparseable date under the dependency comparison
raises `ParserError` and aborts the whole `validate_data` run, and a missing
value under the per-row pattern check raises `TypeError` — cell-level failures
are not isolated to their (column, row). -/
theorem c8_counterexample_errors_abort_run :
    validate_data tblBadDate rulesBadDate = Except.error "ParserError" ∧
    validate_row [("Email Address", Cell.null)] rulesEmail =
      Except.error "TypeError: expected string or bytes-like object" :=
  ⟨rfl, rfl⟩

/-- C8 (amended): only the full-run pattern check coerces cells with `str()`
and reports an uncoercible value as a plain rule failure; a date that cannot be
parsed under the dependency comparison raises and aborts the run, the per-row
pattern check raises on a missing value, and every per-row unique-values check
raises. -/
theorem c8_pattern_coerces_other_checks_raise :
    validate_data tblEmailNull rulesEmail = Except.ok [0] ∧
    checkColumn tblBadDate rulesBadDate "Start Date" RuleType.dependencies =
      Except.error "ParserError" ∧
    rowCheck [("Email Address", Cell.null)] rulesEmail "Email Address"
      RuleType.patternMatching =
      Except.error "TypeError: expected string or bytes-like object" ∧
    rowCheck [] [] "c" RuleType.uniqueValues =
      Except.error "TypeError: duplicated got an unexpected keyword argument subset" :=
  ⟨rfl, rfl, rfl, rfl⟩

/-- C9: two successive validation runs on an unmutated table yield identical
outcomes — `validate_data` reads the table and never writes it. -/
theorem c9_run_twice_identical_outcomes :
    ∀ (df : Table) (rules : List (String × RuleType)) (o : List Nat × List Nat),
      runTwice df rules = Except.ok o → o.1 = o.2 := by
  intro df rules o h
  simp only [runTwice] at h
  split at h
  · cases h
  · rename_i o1 h1
    split at h
    · cases h
    · rename_i o2 h2
      have e2 := Except.ok.inj h2
      subst e2
      have e := Except.ok.inj h
      subst e
      rfl

/-- C9 (witness): the double run on the Required scenario table. -/
theorem c9_run_twice_witness : (([0], [0]) : List Nat × List Nat).1 = ([0], [0]).2 :=
  c9_run_twice_identical_outcomes tblReq rulesReq ([0], [0]) rfl

/-- C10: the failing set computed by `validate_data` never reaches the fix
step — the first loop iteration raises `UnboundLocalError` because
`failed_rows` is read before any assignment (the `validate_data` value having
been discarded), the fix step over an empty failing set fixes nothing, and
every successfully completed iteration leaves `failed_rows` reset to the empty
list. -/
theorem c10_fix_step_never_sees_failing_rows :
    (∀ (file : Table) (select : String → RuleType) (inp : Nat → String → String)
        (st0 : MainState) (confirm : Bool),
      mainInit file select = Except.ok st0 →
      loopIter file select inp st0 confirm =
        Except.error "UnboundLocalError: failed_rows referenced before assignment") ∧
    (∀ (inp : Nat → String → String) (df : Table) (rules : List (String × RuleType)),
      (fix_failed_rows inp df [] rules).df = df ∧
      (fix_failed_rows inp df [] rules).newFailed = []) ∧
    (∀ (file : Table) (select : String → RuleType) (inp : Nat → String → String)
        (st st2 : MainState) (confirm : Bool),
      loopIter file select inp st confirm = Except.ok st2 →
      st2.failedRows = some []) := by
  refine ⟨?_, ?_, ?_⟩
  · intro file select inp st0 confirm h0
    simp only [mainInit] at h0
    split at h0
    · cases h0
    · have e0 := Except.ok.inj h0
      subst e0
      rfl
  · intro inp df rules
    exact ⟨rfl, rfl⟩
  · intro file select inp st st2 confirm h
    simp only [loopIter] at h
    split at h
    · cases h
    · split at h
      · cases h
      · split at h
        · cases h
        · have e := Except.ok.inj h
          subst e
          rfl

/-- C10 (witness): the loop crash and the reset invariant on the concrete
clean file. -/
theorem c10_fix_step_witness :
    loopIter fileW selW inpFix st0W true =
      Except.error "UnboundLocalError: failed_rows referenced before assignment" ∧
    (fix_failed_rows inpFix fileW [] rulesW).df = fileW ∧
    stSomeW.failedRows = some [] :=
  ⟨c10_fix_step_never_sees_failing_rows.1 fileW selW inpFix st0W true rfl,
   (c10_fix_step_never_sees_failing_rows.2.1 inpFix fileW rulesW).1,
   c10_fix_step_never_sees_failing_rows.2.2 fileW selW inpFix stSomeW stSomeW true rfl⟩

end DataValidation
